import Mathlib

/-!
Shallow embedding of `postcard-creator-wrapper` (Python) in Lean 4, used to
check the natural-language specification against the code.

Source files embedded:
  * `src/postcard_creator/_token.py`    — `Token.fetch_token`, base64 helpers,
    the SAML-scrape step of both login flows;
  * `src/postcard_creator/_creator.py`  — `send_free_card`, `_format_recipient`,
    `_send_free_card_defaults`;
  * `src/postcard_creator/_img_util.py` — `rotate_and_scale_image`,
    `find_optimal_size` (the font-size binary search of `create_text_image`);
  * `src/postcard_creator_server/_token.py` — `TokenManager.get` (expiry check).

External effects (HTTP, PIL font metrics, ColorThief) are abstracted as
parameters; everything else is translated statement by statement from the
Python source.
-/

namespace PostcardCreator

/-! ## Token flow orchestration (`Token.fetch_token`, `_token.py` lines 66-129)

The two login flows `_get_access_token_legacy` / `_get_access_token_swissid`
are long sequences of HTTP requests; for the orchestration claims their
outcome is what matters, so each flow is given to `fetchToken` as an
`Except PccError AccessTokenResp` oracle (the value the Python call would
return, or the exception it would raise). -/

/-- The JSON object returned by the OAuth token endpoint, as the Python code
reads it: three dict lookups that may each fail with `KeyError`. -/
structure AccessTokenResp where
  accessToken : Option String
  tokenType : Option String
  expiresIn : Option Int
  deriving Repr, DecidableEq

/-- Errors raised by the embedded code.  `pccEx msg` is
`PostcardCreatorException(msg)`; `keyError k` is a Python `KeyError`/`TypeError`
from a failed subscript, the kind of fault the spec calls a crash. -/
inductive PccError where
  | pccEx (msg : String)
  | keyError (key : String)
  deriving Repr, DecidableEq

/-- The mutable credential fields of `Token`
(`_token.py` lines 48-52 and 118-122). -/
structure Credential where
  token : Option String
  token_type : Option String
  token_expires_in : Option Int
  token_fetched_at : Option Int
  token_implementation : Option String
  deriving Repr, DecidableEq

/-- `method` argument of `fetch_token`. -/
inductive Method where
  | mixed
  | legacy
  | swissid
  deriving Repr, DecidableEq

/-- Names of the two flows, used to record which flows a call attempted. -/
inductive Flow where
  | legacy
  | swissid
  deriving Repr, DecidableEq

/-- Outcome of the flow phase of `fetch_token` (`_token.py` lines 80-114):
either the exception that propagates, or the token-endpoint response plus
`implementation_type`; paired with the list of flows that were attempted,
in order. -/
def fetchTokenFlows (method : Method)
    (legacyResult swissidResult : Except PccError AccessTokenResp) :
    Except PccError (AccessTokenResp × String) × List Flow :=
  -- success = False; access_token = None; implementation_type = ""
  -- if method != "swissid": try legacy
  let afterLegacy : Except PccError (Option (AccessTokenResp × String)) × List Flow :=
    if method ≠ Method.swissid then
      match legacyResult with
      | Except.ok at_ => (Except.ok (some (at_, "legacy")), [Flow.legacy])
      | Except.error e =>
        if method = Method.mixed then
          -- exception is logged, success stays False, flow falls through
          (Except.ok none, [Flow.legacy])
        else
          -- "giving up": raise e
          (Except.error e, [Flow.legacy])
    else (Except.ok none, [])
  match afterLegacy with
  | (Except.error e, attempts) => (Except.error e, attempts)
  | (Except.ok (some res), attempts) => (Except.ok res, attempts)
  | (Except.ok none, attempts) =>
    -- if method != "legacy" and not success: try swissid
    if method ≠ Method.legacy then
      match swissidResult with
      | Except.ok at_ => (Except.ok (at_, "swissid"), attempts ++ [Flow.swissid])
      | Except.error e => (Except.error e, attempts ++ [Flow.swissid])
    else
      -- unreachable in the source: method = legacy always enters the first
      -- branch, so the flow phase has already returned or raised
      (Except.ok (⟨none, none, none⟩, ""), attempts)

/-- The credential-assignment phase of `fetch_token`
(`_token.py` lines 116-129).  The Python code assigns
`self.token`, `self.token_type`, `self.token_expires_in`,
`self.token_fetched_at`, `self.token_implementation` in that order inside a
`try:`; a failed dict lookup raises at that point, keeping every assignment
already made.  The result is the credential state after the block together
with the exception, if any. -/
def applyAccessToken (c : Credential) (resp : AccessTokenResp) (now : Int)
    (impl : String) : Credential × Option PccError :=
  match resp.accessToken with
  | none => (c, some (PccError.keyError "access_token"))
  | some tok =>
    let c1 := { c with token := some tok }
    match resp.tokenType with
    | none => (c1, some (PccError.keyError "token_type"))
    | some ty =>
      let c2 := { c1 with token_type := some ty }
      match resp.expiresIn with
      | none => (c2, some (PccError.keyError "expires_in"))
      | some exp =>
        ({ c2 with token_expires_in := some exp,
                   token_fetched_at := some now,
                   token_implementation := some impl }, none)

/-- Full `fetch_token` on a credential state: the flow phase followed by the
assignment phase.  Returns the credential state observable afterwards and the
exception that propagates, if any. -/
def fetchToken (c : Credential) (method : Method)
    (legacyResult swissidResult : Except PccError AccessTokenResp)
    (now : Int) : Credential × Option PccError :=
  match fetchTokenFlows method legacyResult swissidResult with
  | (Except.error e, _) => (c, some e)
  | (Except.ok (resp, impl), _) => applyAccessToken c resp now impl

/-! ## SAML-response scraping (`_token.py` lines 212-221 and 369-386)

`BeautifulSoup(resp.text, "html.parser")` followed by
`soup.find("input", {"name": n})` is modelled by a list of `<input>`
elements in document order and a first-match search.  `tag[k]` (Python
subscript, raising `KeyError`/`TypeError` when absent) is `getSub`;
`tag.get(k)` (returning `None` when absent) is `HtmlInput.get`. -/

/-- An `<input>` element: its attribute list. -/
structure HtmlInput where
  attrs : List (String × String)
  deriving Repr, DecidableEq

/-- `tag.get(k)`: `None` when attribute `k` is absent. -/
def HtmlInput.get (t : HtmlInput) (k : String) : Option String :=
  (t.attrs.find? (fun a => a.1 == k)).map (fun a => a.2)

/-- `soup.find("input", {"name": n})`: first `<input>` whose `name`
attribute equals `n`, `None` when there is none. -/
def findInputByName (doc : List HtmlInput) (n : String) : Option HtmlInput :=
  doc.find? (fun t => t.get "name" == some n)

/-- Python subscript `tag[k]` on a value that may be `None`: a missing tag is
a `TypeError`, a missing attribute a `KeyError`; both are crashes, not
domain errors. -/
def getSub (t : Option HtmlInput) (k : String) : Except PccError String :=
  match t with
  | none => Except.error (PccError.keyError "NoneType")
  | some tag =>
    match tag.get k with
    | none => Except.error (PccError.keyError k)
    | some v => Except.ok v

/-- The invalid-credentials message raised by both flows
(`_token.py` lines 216-218 and 373-375). -/
def invalidCredMsg : String :=
  "Username/password authentication failed. Are your credentials valid?."

/-- `_get_access_token_legacy`, lines 212-221: scrape `SAMLResponse` (guarded:
a missing element or missing `value` attribute raises
`PostcardCreatorException`), then read its `value` and the `RelayState`
element's `value` (the latter unguarded: Python subscript). -/
def legacySamlStep (doc : List HtmlInput) : Except PccError (String × String) :=
  match findInputByName doc "SAMLResponse" with
  | none => Except.error (PccError.pccEx invalidCredMsg)
  | some saml =>
    match saml.get "value" with
    | none => Except.error (PccError.pccEx invalidCredMsg)
    | some v => do
      let relay ← getSub (findInputByName doc "RelayState") "value"
      Except.ok (v, relay)

/-- `_get_access_token_swissid`, lines 369-386: identical guard on
`SAMLResponse`, then the payload reads `RelayState`'s `value` (subscript) and
`saml_response.get("value")`. -/
def swissidSamlStep (doc : List HtmlInput) : Except PccError (String × String) :=
  match findInputByName doc "SAMLResponse" with
  | none => Except.error (PccError.pccEx invalidCredMsg)
  | some saml =>
    match saml.get "value" with
    | none => Except.error (PccError.pccEx invalidCredMsg)
    | some v => do
      let relay ← getSub (findInputByName doc "RelayState") "value"
      Except.ok (v, relay)

/-! ## Token expiry (`postcard_creator_server/_token.py` lines 42-50) -/

/-- Modelled from the spec: `Token.is_expired` is invoked by
`TokenManager.get` (`postcard_creator_server/_token.py` line 47) but its
definition is not among the provided sources (`__init__.py` imports `Token`
from a `._auth` module that is absent).  The spec's Credential invariant
(§3): "token is usable only if now < fetched_at + expires_in; callers must
re-fetch on expiry" — so the check reports expired exactly when the invariant
fails, and a credential with no recorded fetch is expired. -/
def is_expired (c : Credential) (now : Int) : Bool :=
  match c.token_fetched_at, c.token_expires_in with
  | some fetchedAt, some expiresIn => decide (fetchedAt + expiresIn ≤ now)
  | _, _ => true

/-! ## Base64 helpers (`_token.py` lines 21-29)

Bytes are `List Nat` with every element < 256.  `base64.urlsafe_b64encode`
is the RFC 4648 URL-safe alphabet with `=` padding; `base64.urlsafe_b64decode`
translates the URL-safe alphabet and calls `binascii.a2b_base64` in
non-strict mode, which decodes the data characters and stops at the first
padding group (extra `=` beyond a full quad is ignored). -/

/-- The URL-safe base64 alphabet. -/
def b64Chars : List Char :=
  "ABCDEFGHIJKLMNOPQRSTUVWXYZabcdefghijklmnopqrstuvwxyz0123456789-_".toList

/-- Sextet to alphabet character. -/
def sextetToChar (n : Nat) : Char := b64Chars.getD n 'A'

/-- Alphabet character back to sextet; `none` for non-alphabet characters
(ignored by `a2b_base64` in non-strict mode). -/
def charToSextet (c : Char) : Option Nat := b64Chars.findIdx? (fun d => d == c)

/-- `base64.urlsafe_b64encode`: 3-byte groups become 4 characters; a 2-byte
tail becomes 3 characters plus one `=`; a 1-byte tail two characters plus
two `=`. -/
def b64EncodeGroups : List Nat → List Char
  | b1 :: b2 :: b3 :: rest =>
    sextetToChar (b1 / 4) :: sextetToChar (b1 % 4 * 16 + b2 / 16) ::
      sextetToChar (b2 % 16 * 4 + b3 / 64) :: sextetToChar (b3 % 64) ::
      b64EncodeGroups rest
  | [b1, b2] =>
    [sextetToChar (b1 / 4), sextetToChar (b1 % 4 * 16 + b2 / 16),
      sextetToChar (b2 % 16 * 4), '=']
  | [b1] => [sextetToChar (b1 / 4), sextetToChar (b1 % 4 * 16), '=', '=']
  | [] => []

/-- `str.rstrip("=")`: drop the trailing run of `=` characters. -/
def stripTrailingEq (s : List Char) : List Char :=
  (s.reverse.dropWhile (fun c => c == '=')).reverse

/-- `base64_encode` (`_token.py` lines 21-23): URL-safe encode, then strip
the `=` padding. -/
def base64_encode (string : List Nat) : List Char :=
  stripTrailingEq (b64EncodeGroups string)

/-- `binascii.a2b_base64` on the sextet stream: groups of 4 sextets become
3 bytes; a trailing group of 3 becomes 2 bytes, of 2 becomes 1 byte. -/
def b64DecodeQuads : List Nat → List Nat
  | s1 :: s2 :: s3 :: s4 :: rest =>
    (s1 * 4 + s2 / 16) :: (s2 % 16 * 16 + s3 / 4) :: (s3 % 4 * 64 + s4) ::
      b64DecodeQuads rest
  | [s1, s2, s3] => [s1 * 4 + s2 / 16, s2 % 16 * 16 + s3 / 4]
  | [s1, s2] => [s1 * 4 + s2 / 16]
  | _ => []

/-- `base64_decode` (`_token.py` lines 26-29): append `4 - len % 4` padding
characters (four when the length is already a multiple of 4), then URL-safe
decode: the data characters before the padding are decoded and the padding
terminates the scan. -/
def base64_decode (string : List Char) : List Nat :=
  let padding := 4 - string.length % 4
  let padded := string ++ List.replicate padding '='
  b64DecodeQuads ((padded.takeWhile (fun c => c ≠ '=')).filterMap charToSextet)

/-! ## Postcard data and the card-upload payload (`_postcard.py`, `_creator.py`)

The two base64 JPEG strings embedded in the payload are produced by the
image pipeline (PIL); they enter `send_free_card` here as already-computed
strings. -/

/-- `Sender` dataclass (`_postcard.py`). -/
structure Sender where
  prename : String
  lastname : String
  street : String
  zip_code : Int
  place : String
  company : String
  country : String
  deriving Repr, DecidableEq

/-- `Recipient` dataclass (`_postcard.py`). -/
structure Recipient where
  prename : String
  lastname : String
  street : String
  zip_code : Int
  place : String
  company : String
  company_addition : String
  salutation : String
  deriving Repr, DecidableEq

/-- `Postcard` dataclass (`_postcard.py`); the picture stream is opaque. -/
structure Postcard where
  sender : Sender
  recipient : Recipient
  message : String
  deriving Repr, DecidableEq

/-- The serialized sender (`_format_sender`, `_creator.py` lines 49-57). -/
structure SenderWire where
  city : String
  company : String
  firstname : String
  lastname : String
  street : String
  zip : Int
  deriving Repr, DecidableEq

/-- The serialized recipient (`_format_recipient`, `_creator.py` lines 60-71). -/
structure RecipientWire where
  city : String
  company : String
  companyAddon : String
  country : String
  firstname : String
  lastname : String
  street : String
  title : String
  zip : Int
  deriving Repr, DecidableEq

/-- `_format_sender` (`_creator.py` lines 49-57). -/
def format_sender (sender : Sender) : SenderWire :=
  { city := sender.place
    company := sender.company
    firstname := sender.prename
    lastname := sender.lastname
    street := sender.street
    zip := sender.zip_code }

/-- `_format_recipient` (`_creator.py` lines 60-71): note the fixed
`country` value. -/
def format_recipient (recipient : Recipient) : RecipientWire :=
  { city := recipient.place
    company := recipient.company
    companyAddon := recipient.company_addition
    country := "SWITZERLAND"
    firstname := recipient.prename
    lastname := recipient.lastname
    street := recipient.street
    title := recipient.salutation
    zip := recipient.zip_code }

/-- The `/card/upload` JSON payload (`_creator.py` lines 172-181).
`textImage` and `image` are the base64 strings; `stamp` is `None`. -/
structure SendPayload where
  lang : String
  paid : Bool
  recipient : RecipientWire
  sender : SenderWire
  text : String
  textImage : String
  image : String
  stamp : Option String
  deriving Repr, DecidableEq

/-- Outcome of `send_free_card`: the mock branch returns Python `False`
after logging a copy of the payload with both images replaced by
`"omitted"`; otherwise either an exception propagates or the payload is
posted to `/card/upload`. -/
inductive SendResult where
  | mockedFalse (loggedPayload : SendPayload)
  | error (e : PccError)
  | sent (uploadedPayload : SendPayload)
  deriving Repr, DecidableEq

/-- `PostcardCreator.send_free_card` (`_creator.py` lines 144-202), with the
image pipeline's two base64 strings (`img_base64`, `img_text_base64`) and the
quota response (`available` plus the `next` field read for the error message)
supplied as values.  Returns the outcome paired with whether the
`/card/upload` endpoint was called. -/
def send_free_card (postcard : Option Postcard) (mock_send : Bool)
    (img_base64 img_text_base64 : String)
    (quotaAvailable : Bool) (quotaNext : String) : SendResult × Bool :=
  match postcard with
  | none => (SendResult.error (PccError.pccEx "Postcard must be set"), false)
  | some pc =>
    let payload : SendPayload :=
      { lang := "en"
        paid := false
        recipient := format_recipient pc.recipient
        sender := format_sender pc.sender
        text := ""
        textImage := img_text_base64
        image := img_base64
        stamp := none }
    if mock_send then
      let copy := { payload with textImage := "omitted", image := "omitted" }
      (SendResult.mockedFalse copy, false)
    else if ¬quotaAvailable then
      (SendResult.error (PccError.pccEx
        ("Limit of free postcards exceeded. Try again tomorrow at " ++ quotaNext)),
        false)
    else
      (SendResult.sent payload, true)

/-- The `image_rotate` default computed by the `_send_free_card_defaults`
decorator (`_creator.py` line 42):
`kwargs["image_rotate"] = kwargs.get("image_rotate") or True`.
`none` models an absent (or explicit `None`) argument; `x or True` in Python
yields `x` when `x` is truthy and `True` otherwise. -/
def send_free_card_defaults_image_rotate (passed : Option Bool) : Bool :=
  match passed with
  | some b => if b then b else true
  | none => true

/-! ## Image scaling (`rotate_and_scale_image`, `_img_util.py` lines 25-111)

Pixel content is opaque (`content` tag); PIL dimensions are natural numbers,
but `image_quality_factor` is a Python float and the adjusted factor a true
ratio, so the computed box is rational.  `resizeimage.resize_cover` with
`validate=True` raises exactly when the image is strictly smaller than the
requested box in either dimension; `ColorThief(file).get_color(quality=1)`
is the abstract `getColor` applied to the original (unrotated) source. -/

/-- A decoded source image. -/
structure SrcImage where
  w : Nat
  h : Nat
  content : Nat
  deriving Repr, DecidableEq

/-- `image.rotate(90, expand=True)` applied when rotation is on and the
image is portrait (`_img_util.py` lines 40-42). -/
def rotatedImage (img : SrcImage) (image_rotate : Bool) : SrcImage :=
  if image_rotate ∧ img.w < img.h then
    { img with w := img.h, h := img.w }
  else img

/-- The `[width, height]` box passed to `resize_cover`/`resize_contain`
(`_img_util.py` lines 44-61): when `enforce_size` is off and the image is
smaller than `quality_factor × target` in either dimension, the factor is
replaced by `min(height-ratio, width-ratio)`. -/
def computedBox (image : SrcImage) (image_target_width image_target_height : Nat)
    (image_quality_factor : ℚ) (enforce_size : Bool) : ℚ × ℚ :=
  let qf : ℚ :=
    if ¬enforce_size ∧
        ((image.w : ℚ) < image_quality_factor * image_target_width ∨
          (image.h : ℚ) < image_quality_factor * image_target_height) then
      min ((image.h : ℚ) / image_target_height) ((image.w : ℚ) / image_target_width)
    else image_quality_factor
  ((image_target_width : ℚ) * qf, (image_target_height : ℚ) * qf)

/-- Result of the resize step: which strategy ran, the box, and (for the
contain fallback) the background fill colour. -/
inductive ResizeOutcome where
  | cover (w h : ℚ)
  | contain (w h : ℚ) (bg : Nat × Nat × Nat × Nat)
  deriving Repr, DecidableEq

/-- `rotate_and_scale_image` (`_img_util.py` lines 25-111): rotate, compute
the box, try `resize_cover` (whose validation raises exactly when
`fallback_color_fill` is on and the image is smaller than the box in either
dimension), and on that exception fall back to `resize_contain` with the
dominant colour `(r, g, b, 0)` sampled from the source file. -/
def rotate_and_scale_image (getColor : SrcImage → Nat × Nat × Nat)
    (file : SrcImage) (image_target_width image_target_height : Nat)
    (image_quality_factor : ℚ) (image_rotate enforce_size fallback_color_fill : Bool) :
    ResizeOutcome :=
  let image := rotatedImage file image_rotate
  let box := computedBox image image_target_width image_target_height
    image_quality_factor enforce_size
  if fallback_color_fill ∧ ((image.w : ℚ) < box.1 ∨ (image.h : ℚ) < box.2) then
    let c := getColor file
    ResizeOutcome.contain box.1 box.2 (c.1, c.2.1, c.2.2, 0)
  else
    ResizeOutcome.cover box.1 box.2

/-! ## Font-size search (`find_optimal_size`, `_img_util.py` lines 132-197)

The font metrics come from a TrueType font via PIL, abstracted as:
`charW size n` — the `_get_font_bbox_dim` width of the string `"1" * n` at
font size `size` (the only strings `line_width` measures); `fontH size` —
the `_get_font_bbox_dim` height of the whole message at size `size`
(`line_h` in the source); `wrapLines w` — the number of lines produced by
`textwrap.wrap`-ping each `splitlines()` line of the message at width `w`
and flattening (only `len(lines)` is used).  PIL's `getbbox` returns
integers.

Both `while` loops are embedded with an explicit iteration budget (`fuel`);
each iteration strictly shrinks `right + 1 - left`, so a budget of the
initial `right + 1 - left` is exact and the out-of-fuel branch is
unreachable for the budgets used below. -/

/-- The `while left < right` loop of `line_width`
(`_img_util.py` lines 147-162): binary search on the character count `n`,
probing `font_w = width("1" * n) + 2 * line_padding` against the canvas
width 720, and returning the last probed `n`. -/
def lwLoop (charW : Nat → Nat → Nat) (font_size : Nat) :
    Nat → Nat → Nat → Nat → Nat
  | 0, _, _, n => n
  | fuel + 1, left, right, n =>
    if left < right then
      let m := (left + right) / 2
      if charW font_size m + 2 * 70 ≥ 720 then
        lwLoop charW font_size fuel left (m - 1) m
      else
        lwLoop charW font_size fuel (m + 1) right m
    else n

/-- `line_width(font_size)` with the call-site defaults
`min_line_w = 1`, `max_line_w = 80`, `line_padding = 70`. -/
def line_width (charW : Nat → Nat → Nat) (font_size : Nat) : Nat :=
  lwLoop charW font_size 80 1 80 0

/-- One probe of the outer search: the wrapped layout at font size `size`
fits the canvas, i.e. `start_y` ends up non-zero
(`_img_util.py` lines 173-189).  `tot_height + 2 * padding < 744` makes
`start_y = (744 - tot_height) / 2 ≥ 0.5 > 0` (float division), so the fit
test is exactly this inequality. -/
def sizeFits (wrapLines : Nat → Nat) (charW : Nat → Nat → Nat)
    (fontH : Nat → Nat) (padding : Nat) (size : Nat) : Bool :=
  wrapLines (line_width charW size) * fontH size + 2 * padding < 744

/-- The `while size_l < size_r` loop of `find_optimal_size`
(`_img_util.py` lines 169-196): binary search over the font size, keeping
the last probed size and its line width, which the function returns. -/
def fosLoop (wrapLines : Nat → Nat) (charW : Nat → Nat → Nat)
    (fontH : Nat → Nat) (padding : Nat) :
    Nat → Nat → Nat → Nat → Nat → Nat × Nat
  | 0, _, _, last_size, last_line_w => (last_size, last_line_w)
  | fuel + 1, size_l, size_r, last_size, last_line_w =>
    if size_l < size_r then
      let size := (size_l + size_r) / 2
      let line_w := line_width charW size
      if sizeFits wrapLines charW fontH padding size then
        fosLoop wrapLines charW fontH padding fuel (size + 1) size_r size line_w
      else
        fosLoop wrapLines charW fontH padding fuel size_l (size - 1) size line_w
    else (last_size, last_line_w)

/-- `find_optimal_size(msg, padding)` with the defaults `min_size = 20`,
`max_size = 400` (the guard `min_line_w < max_line_w` holds for the
defaults, so no exception).  `last_size`/`last_line_w` start at 0. -/
def find_optimal_size (wrapLines : Nat → Nat) (charW : Nat → Nat → Nat)
    (fontH : Nat → Nat) (padding : Nat) : Nat × Nat :=
  fosLoop wrapLines charW fontH padding 381 20 400 0 0

/-! ## Proof-side helper definitions -/

/-- The sextet stream of the URL-safe encoding without its padding: the
characters `base64_encode` keeps after `rstrip("=")`, as numbers. -/
def sextetsOf : List Nat → List Nat
  | b1 :: b2 :: b3 :: rest =>
    b1 / 4 :: (b1 % 4 * 16 + b2 / 16) :: (b2 % 16 * 4 + b3 / 64) :: b3 % 64 ::
      sextetsOf rest
  | [b1, b2] => [b1 / 4, b1 % 4 * 16 + b2 / 16, b2 % 16 * 4]
  | [b1] => [b1 / 4, b1 % 4 * 16]
  | [] => []

/-- The `last_size` trajectory of `fosLoop` when every probed size fits:
only the lower bound moves, and the returned value is the last midpoint. -/
def allFitTrace : Nat → Nat → Nat → Nat → Nat
  | 0, _, _, last_size => last_size
  | fuel + 1, size_l, size_r, last_size =>
    if size_l < size_r then
      allFitTrace fuel ((size_l + size_r) / 2 + 1) size_r ((size_l + size_r) / 2)
    else last_size

/-! ## Lemmas about the base64 helpers -/

/-- Every character of the base64 alphabet differs from the padding
character. -/
theorem sextetToChar_ne_pad (n : Nat) : sextetToChar n ≠ '=' := by
  have hlt : ∀ m < 64, sextetToChar m ≠ '=' := by decide
  by_cases h : n < 64
  · exact hlt n h
  · have hlen : b64Chars.length = 64 := by decide
    unfold sextetToChar
    rw [List.getD_eq_default]
    · decide
    · omega

/-- Decoding inverts encoding on single sextets. -/
theorem charToSextet_sextetToChar : ∀ n < 64, charToSextet (sextetToChar n) = some n := by
  decide

/-- `filterMap charToSextet` inverts `map sextetToChar` on sextet streams. -/
theorem filterMap_charToSextet (s : List Nat) (h : ∀ x ∈ s, x < 64) :
    (s.map sextetToChar).filterMap charToSextet = s := by
  induction s with
  | nil => rfl
  | cons a t ih =>
    have ha : a < 64 := h a (by simp)
    simp only [List.map_cons, List.filterMap_cons,
      charToSextet_sextetToChar a ha]
    rw [ih (fun x hx => h x (by simp [hx]))]

/-- All sextets produced from well-formed bytes are below 64. -/
theorem sextetsOf_lt : ∀ (bs : List Nat), (∀ b ∈ bs, b < 256) →
    ∀ x ∈ sextetsOf bs, x < 64
  | [], _ => by simp [sextetsOf]
  | [b1], h => by
    have h1 : b1 < 256 := h b1 (by simp)
    simp only [sextetsOf, List.mem_cons, List.not_mem_nil, or_false]
    rintro x (rfl | rfl) <;> omega
  | [b1, b2], h => by
    have h1 : b1 < 256 := h b1 (by simp)
    have h2 : b2 < 256 := h b2 (by simp)
    simp only [sextetsOf, List.mem_cons, List.not_mem_nil, or_false]
    rintro x (rfl | rfl | rfl) <;> omega
  | b1 :: b2 :: b3 :: rest, h => by
    have h1 : b1 < 256 := h b1 (by simp)
    have h2 : b2 < 256 := h b2 (by simp)
    have h3 : b3 < 256 := h b3 (by simp)
    have ih := sextetsOf_lt rest (fun b hb => h b (by simp [hb]))
    simp only [sextetsOf, List.mem_cons]
    rintro x (rfl | rfl | rfl | rfl | hx)
    · omega
    · omega
    · omega
    · omega
    · exact ih x hx

/-- `rstrip("=")` distributes over a pad-free head. -/
theorem stripTrailingEq_append (xs ys : List Char) (hx : ∀ x ∈ xs, x ≠ '=') :
    stripTrailingEq (xs ++ ys) = xs ++ stripTrailingEq ys := by
  unfold stripTrailingEq
  rw [List.reverse_append, List.dropWhile_append]
  by_cases hempty : (List.dropWhile (fun c => c == '=') ys.reverse).isEmpty = true
  · rw [if_pos hempty]
    have hys : List.dropWhile (fun c => c == '=') ys.reverse = [] :=
      List.isEmpty_iff.mp hempty
    rw [hys, List.reverse_nil, List.append_nil]
    have : List.dropWhile (fun c => c == '=') xs.reverse = xs.reverse := by
      cases hrev : xs.reverse with
      | nil => rfl
      | cons a t =>
        have ha : a ∈ xs := by
          have : a ∈ xs.reverse := by rw [hrev]; simp
          simpa using this
        rw [List.dropWhile_cons]
        simp [hx a ha]
    rw [this, List.reverse_reverse]
  · rw [if_neg hempty, List.reverse_append, List.reverse_reverse]

/-- `base64_encode` is the padding-free sextet stream, rendered in the
URL-safe alphabet. -/
theorem base64_encode_eq_sextets : ∀ (bs : List Nat),
    base64_encode bs = (sextetsOf bs).map sextetToChar
  | [] => rfl
  | [b1] => by
    show stripTrailingEq (b64EncodeGroups [b1]) = _
    have e1 : (sextetToChar (b1 % 4 * 16) == '=') = false := by
      simp [sextetToChar_ne_pad]
    unfold b64EncodeGroups stripTrailingEq
    simp [sextetsOf, List.dropWhile, e1]
  | [b1, b2] => by
    show stripTrailingEq (b64EncodeGroups [b1, b2]) = _
    have e1 : (sextetToChar (b2 % 16 * 4) == '=') = false := by
      simp [sextetToChar_ne_pad]
    unfold b64EncodeGroups stripTrailingEq
    simp [sextetsOf, List.dropWhile, e1]
  | b1 :: b2 :: b3 :: rest => by
    have ih := base64_encode_eq_sextets rest
    show stripTrailingEq (b64EncodeGroups (b1 :: b2 :: b3 :: rest)) = _
    have hgroups : b64EncodeGroups (b1 :: b2 :: b3 :: rest) =
        [sextetToChar (b1 / 4), sextetToChar (b1 % 4 * 16 + b2 / 16),
          sextetToChar (b2 % 16 * 4 + b3 / 64), sextetToChar (b3 % 64)] ++
          b64EncodeGroups rest := by
      rfl
    rw [hgroups, stripTrailingEq_append]
    · show _ ++ stripTrailingEq (b64EncodeGroups rest) = _
      rw [show stripTrailingEq (b64EncodeGroups rest) = base64_encode rest from rfl,
        ih]
      simp [sextetsOf]
    · intro x hx
      simp only [List.mem_cons, List.not_mem_nil, or_false] at hx
      rcases hx with rfl | rfl | rfl | rfl <;> exact sextetToChar_ne_pad _

/-- Decoding quads inverts the sextet stream of well-formed bytes. -/
theorem b64DecodeQuads_sextetsOf : ∀ (bs : List Nat), (∀ b ∈ bs, b < 256) →
    b64DecodeQuads (sextetsOf bs) = bs
  | [], _ => rfl
  | [b1], h => by
    have h1 : b1 < 256 := h b1 (by simp)
    simp only [sextetsOf, b64DecodeQuads, List.cons.injEq, and_true]
    omega
  | [b1, b2], h => by
    have h1 : b1 < 256 := h b1 (by simp)
    have h2 : b2 < 256 := h b2 (by simp)
    simp only [sextetsOf, b64DecodeQuads, List.cons.injEq, and_true]
    constructor <;> omega
  | b1 :: b2 :: b3 :: rest, h => by
    have h1 : b1 < 256 := h b1 (by simp)
    have h2 : b2 < 256 := h b2 (by simp)
    have h3 : b3 < 256 := h b3 (by simp)
    have ih := b64DecodeQuads_sextetsOf rest (fun b hb => h b (by simp [hb]))
    simp only [sextetsOf, b64DecodeQuads, List.cons.injEq]
    refine ⟨by omega, by omega, by omega, ih⟩

/-- C10: for every byte string `b`, `base64_decode (base64_encode b) = b`:
the unpadded URL-safe base64 encoding produced by `base64_encode` is
inverted by `base64_decode`, including the case where the encoded string's
length is already a multiple of 4 and the decoder appends 4 padding
characters. -/
theorem base64_decode_encode_roundtrip (bs : List Nat)
    (h : ∀ b ∈ bs, b < 256) : base64_decode (base64_encode bs) = bs := by
  rw [base64_encode_eq_sextets]
  show b64DecodeQuads ((((sextetsOf bs).map sextetToChar ++
      List.replicate (4 - ((sextetsOf bs).map sextetToChar).length % 4) '=').takeWhile
        (fun c => decide (c ≠ '='))).filterMap charToSextet) = bs
  have hpadfree : ∀ x ∈ (sextetsOf bs).map sextetToChar,
      (fun c => decide (c ≠ '=')) x = true := by
    intro x hx
    obtain ⟨n, _, rfl⟩ := List.mem_map.mp hx
    simp [sextetToChar_ne_pad]
  have hself := List.takeWhile_eq_self_iff.mpr hpadfree
  rw [List.takeWhile_append, if_pos (by rw [hself])]
  rw [List.takeWhile_replicate, if_neg (by decide), List.append_nil]
  rw [filterMap_charToSextet _ (sextetsOf_lt bs h)]
  exact b64DecodeQuads_sextetsOf bs h

/-- Witness for C10 at the concrete byte string `[1, 2, 3]`, whose encoding
`"AQID"` has length 4, so the decoder appends four padding characters. -/
theorem base64_decode_encode_roundtrip_witness :
    (∀ b ∈ [1, 2, 3], b < 256) ∧
      base64_decode (base64_encode [1, 2, 3]) = [1, 2, 3] :=
  ⟨by decide, base64_decode_encode_roundtrip [1, 2, 3] (by decide)⟩

/-- C1: with `method="mixed"`, `fetch_token` attempts the legacy flow first;
if the legacy flow raises, the swissid flow is attempted and an exception
raised there propagates as the final failure.  With `method="legacy"` or
`method="swissid"`, an exception from the single selected flow propagates
immediately and the other flow is never attempted. -/
theorem fetch_token_method_policy (c : Credential)
    (leg swd : Except PccError AccessTokenResp) (now : Int) :
    (∀ e, leg = Except.error e →
      (fetchTokenFlows Method.mixed leg swd).2 = [Flow.legacy, Flow.swissid] ∧
      ∀ e2, swd = Except.error e2 →
        fetchToken c Method.mixed leg swd now = (c, some e2)) ∧
    (∀ e, leg = Except.error e →
      fetchToken c Method.legacy leg swd now = (c, some e) ∧
      Flow.swissid ∉ (fetchTokenFlows Method.legacy leg swd).2) ∧
    (Flow.legacy ∉ (fetchTokenFlows Method.swissid leg swd).2 ∧
      ∀ e2, swd = Except.error e2 →
        fetchToken c Method.swissid leg swd now = (c, some e2)) := by
  refine ⟨fun e he => ?_, fun e he => ?_, ?_, fun e2 he2 => ?_⟩
  · subst he
    refine ⟨?_, fun e2 he2 => ?_⟩
    · cases swd <;> rfl
    · subst he2; rfl
  · subst he
    exact ⟨rfl, by simp [fetchTokenFlows]⟩
  · cases swd <;> simp [fetchTokenFlows]
  · subst he2
    cases leg <;> rfl

/-- Witness for C1: both flows failing, at each of the three methods. -/
theorem fetch_token_method_policy_witness :
    (fetchTokenFlows Method.mixed (Except.error (PccError.pccEx "a"))
        (Except.error (PccError.pccEx "b"))).2 = [Flow.legacy, Flow.swissid] ∧
    fetchToken ⟨none, none, none, none, none⟩ Method.mixed
        (Except.error (PccError.pccEx "a")) (Except.error (PccError.pccEx "b")) 0 =
      (⟨none, none, none, none, none⟩, some (PccError.pccEx "b")) ∧
    fetchToken ⟨none, none, none, none, none⟩ Method.legacy
        (Except.error (PccError.pccEx "a")) (Except.error (PccError.pccEx "b")) 0 =
      (⟨none, none, none, none, none⟩, some (PccError.pccEx "a")) ∧
    Flow.legacy ∉ (fetchTokenFlows Method.swissid (Except.error (PccError.pccEx "a"))
        (Except.error (PccError.pccEx "b"))).2 := by
  have h := fetch_token_method_policy ⟨none, none, none, none, none⟩
    (Except.error (PccError.pccEx "a")) (Except.error (PccError.pccEx "b")) 0
  exact ⟨(h.1 _ rfl).1, (h.1 _ rfl).2 _ rfl, (h.2.1 _ rfl).1, h.2.2.1⟩

/-- C5: for every HTML body whose `SAMLResponse` input is absent or lacks a
`value` attribute, both the legacy and the swissid scrape step raise
`PostcardCreatorException` with the invalid-credentials message, never a
missing-attribute fault. -/
theorem saml_missing_raises_auth_failed (doc : List HtmlInput)
    (h : (findInputByName doc "SAMLResponse").bind (fun t => t.get "value") = none) :
    legacySamlStep doc = Except.error (PccError.pccEx invalidCredMsg) ∧
    swissidSamlStep doc = Except.error (PccError.pccEx invalidCredMsg) := by
  cases hf : findInputByName doc "SAMLResponse" with
  | none =>
    simp [legacySamlStep, swissidSamlStep, hf]
  | some saml =>
    rw [hf, Option.some_bind] at h
    simp [legacySamlStep, swissidSamlStep, hf, h]

/-- Witness for C5: an HTML body with a value-less `SAMLResponse` input and
no `RelayState` at all. -/
theorem saml_missing_raises_auth_failed_witness :
    legacySamlStep [⟨[("name", "SAMLResponse")]⟩] =
      Except.error (PccError.pccEx invalidCredMsg) ∧
    swissidSamlStep [⟨[("name", "SAMLResponse")]⟩] =
      Except.error (PccError.pccEx invalidCredMsg) :=
  saml_missing_raises_auth_failed [⟨[("name", "SAMLResponse")]⟩] rfl

/-- C6: `send_free_card` with `mock_send=true` returns `False` without
calling `/card/upload`, logging the would-be payload with both images
redacted to `"omitted"`; with `mock_send=false` and a quota response with
`available=false` it raises the quota-exceeded error, again without calling
`/card/upload` (the payload's `paid` is the fixed `False`). -/
theorem send_free_card_mock_and_quota_gating (pc : Postcard)
    (img_base64 img_text_base64 : String) (quotaAvailable : Bool)
    (quotaNext : String) :
    send_free_card (some pc) true img_base64 img_text_base64 quotaAvailable
        quotaNext =
      (SendResult.mockedFalse
        { lang := "en", paid := false, recipient := format_recipient pc.recipient,
          sender := format_sender pc.sender, text := "", textImage := "omitted",
          image := "omitted", stamp := none }, false) ∧
    send_free_card (some pc) false img_base64 img_text_base64 false quotaNext =
      (SendResult.error (PccError.pccEx
        ("Limit of free postcards exceeded. Try again tomorrow at " ++ quotaNext)),
        false) :=
  ⟨rfl, rfl⟩

/-- C8: every payload posted to `/card/upload` by `send_free_card` has
`lang = "en"`, `text = ""`, `stamp = null`, and a recipient serialized with
`country = "SWITZERLAND"` regardless of the caller's `Recipient`. -/
theorem send_free_card_payload_constants (pc : Postcard) (mock_send : Bool)
    (img_base64 img_text_base64 : String) (quotaAvailable : Bool)
    (quotaNext : String) (p : SendPayload)
    (h : (send_free_card (some pc) mock_send img_base64 img_text_base64
        quotaAvailable quotaNext).1 = SendResult.sent p) :
    p.lang = "en" ∧ p.text = "" ∧ p.stamp = none ∧
      p.recipient.country = "SWITZERLAND" := by
  cases mock_send with
  | true => simp [send_free_card] at h
  | false =>
    cases quotaAvailable with
    | false => simp [send_free_card] at h
    | true =>
      simp [send_free_card] at h
      subst h
      exact ⟨rfl, rfl, rfl, rfl⟩

/-- Witness for C8: a concrete postcard actually sent (mock off, quota
available). -/
theorem send_free_card_payload_constants_witness :
    ((send_free_card
        (some ⟨⟨"sp", "sl", "ss", 8000, "spl", "sc", "CH"⟩,
          ⟨"rp", "rl", "rs", 8001, "rpl", "rc", "rca", "rsal"⟩, "hi"⟩)
        false "IMG" "TXT" true "tomorrow").1 =
      SendResult.sent
        { lang := "en", paid := false,
          recipient := format_recipient ⟨"rp", "rl", "rs", 8001, "rpl", "rc", "rca", "rsal"⟩,
          sender := format_sender ⟨"sp", "sl", "ss", 8000, "spl", "sc", "CH"⟩,
          text := "", textImage := "TXT", image := "IMG", stamp := none }) ∧
    ((format_recipient ⟨"rp", "rl", "rs", 8001, "rpl", "rc", "rca", "rsal"⟩).country =
      "SWITZERLAND") :=
  ⟨rfl,
    (send_free_card_payload_constants
      ⟨⟨"sp", "sl", "ss", 8000, "spl", "sc", "CH"⟩,
        ⟨"rp", "rl", "rs", 8001, "rpl", "rc", "rca", "rsal"⟩, "hi"⟩
      false "IMG" "TXT" true "tomorrow" _ rfl).2.2.2⟩

/-- C9: the `_send_free_card_defaults` decorator computes `image_rotate` as
`kwargs.get("image_rotate") or True`, so the flag is `True` whatever the
caller passes — an explicit `False` included — and consequently every
portrait source image (height greater than width) is rotated 90 degrees
before scaling. -/
theorem image_rotate_always_forced (passed : Option Bool) (img : SrcImage)
    (h : img.w < img.h) :
    send_free_card_defaults_image_rotate passed = true ∧
    rotatedImage img (send_free_card_defaults_image_rotate passed) =
      { w := img.h, h := img.w, content := img.content } := by
  have hp : send_free_card_defaults_image_rotate passed = true := by
    cases passed with
    | none => rfl
    | some b => cases b <;> rfl
  refine ⟨hp, ?_⟩
  rw [hp]
  simp [rotatedImage, h]

/-- Witness for C9: an explicitly passed `image_rotate=False` and a concrete
portrait image. -/
theorem image_rotate_always_forced_witness :
    send_free_card_defaults_image_rotate (some false) = true ∧
    rotatedImage ⟨100, 150, 7⟩ (send_free_card_defaults_image_rotate (some false)) =
      { w := 150, h := 100, content := 7 } :=
  image_rotate_always_forced (some false) ⟨100, 150, 7⟩ (by decide)

/-- C2 counterexample: a token-endpoint response containing `access_token`
but missing `token_type` makes `fetch_token` raise *after* assigning
`self.token`, so the credential observable after the failure differs from
its previous state — partially updated, against the claim that all fields
are left at their previous values on every failure. -/
theorem fetch_token_partial_update_counterexample :
    (fetchToken ⟨some "old", some "oldType", some 3600, some 0, some "legacy"⟩
        Method.legacy (Except.ok ⟨some "new", none, none⟩)
        (Except.ok ⟨some "new", none, none⟩) 100).2 =
      some (PccError.keyError "token_type") ∧
    (fetchToken ⟨some "old", some "oldType", some 3600, some 0, some "legacy"⟩
        Method.legacy (Except.ok ⟨some "new", none, none⟩)
        (Except.ok ⟨some "new", none, none⟩) 100).1.token = some "new" ∧
    (fetchToken ⟨some "old", some "oldType", some 3600, some 0, some "legacy"⟩
        Method.legacy (Except.ok ⟨some "new", none, none⟩)
        (Except.ok ⟨some "new", none, none⟩) 100).1 ≠
      ⟨some "old", some "oldType", some 3600, some 0, some "legacy"⟩ := by
  refine ⟨rfl, rfl, ?_⟩
  decide

/-- C2 amended: a `fetch_token` failure during the flow phase, or a
response missing `access_token`, leaves every credential field at its
previous value; but a response with `access_token` present and `token_type`
(resp. `expires_in`) missing raises after updating `token` (resp. `token`
and `token_type`), leaving a partially updated credential observable; all
five fields are replaced together only on success. -/
theorem fetch_token_credential_update (c : Credential) (m : Method)
    (leg swd : Except PccError AccessTokenResp) (now : Int) :
    (∀ e, (fetchTokenFlows m leg swd).1 = Except.error e →
      fetchToken c m leg swd now = (c, some e)) ∧
    (∀ resp impl, (fetchTokenFlows m leg swd).1 = Except.ok (resp, impl) →
      (resp.accessToken = none →
        fetchToken c m leg swd now = (c, some (PccError.keyError "access_token"))) ∧
      (∀ tok, resp.accessToken = some tok → resp.tokenType = none →
        fetchToken c m leg swd now =
          ({ c with token := some tok }, some (PccError.keyError "token_type"))) ∧
      (∀ tok ty, resp.accessToken = some tok → resp.tokenType = some ty →
        resp.expiresIn = none →
        fetchToken c m leg swd now =
          ({ c with token := some tok, token_type := some ty },
            some (PccError.keyError "expires_in"))) ∧
      (∀ tok ty e, resp.accessToken = some tok → resp.tokenType = some ty →
        resp.expiresIn = some e →
        fetchToken c m leg swd now =
          (⟨some tok, some ty, some e, some now, some impl⟩, none))) := by
  cases hp : fetchTokenFlows m leg swd with
  | mk res att =>
    constructor
    · intro e hflow
      simp only at hflow
      subst hflow
      simp [fetchToken, hp]
    · intro resp impl hflow
      simp only at hflow
      subst hflow
      refine ⟨fun hnone => ?_, fun tok htok htynone => ?_,
        fun tok ty htok hty hexpnone => ?_, fun tok ty e htok hty hexp => ?_⟩
      · simp [fetchToken, hp, applyAccessToken, hnone]
      · simp [fetchToken, hp, applyAccessToken, htok, htynone]
      · simp [fetchToken, hp, applyAccessToken, htok, hty, hexpnone]
      · simp [fetchToken, hp, applyAccessToken, htok, hty, hexp]

/-- Witness for the amended C2: one concrete instance per case of the
characterization, on an initially populated credential. -/
theorem fetch_token_credential_update_witness :
    fetchToken ⟨some "old", some "oldType", some 3600, some 0, some "legacy"⟩
        Method.legacy (Except.error (PccError.pccEx "boom"))
        (Except.ok ⟨some "x", some "y", some 1⟩) 100 =
      (⟨some "old", some "oldType", some 3600, some 0, some "legacy"⟩,
        some (PccError.pccEx "boom")) ∧
    fetchToken ⟨some "old", some "oldType", some 3600, some 0, some "legacy"⟩
        Method.legacy (Except.ok ⟨some "new", none, none⟩)
        (Except.ok ⟨some "x", some "y", some 1⟩) 100 =
      (⟨some "new", some "oldType", some 3600, some 0, some "legacy"⟩,
        some (PccError.keyError "token_type")) ∧
    fetchToken ⟨some "old", some "oldType", some 3600, some 0, some "legacy"⟩
        Method.legacy (Except.ok ⟨some "new", some "Bearer", some 7200⟩)
        (Except.ok ⟨some "x", some "y", some 1⟩) 100 =
      (⟨some "new", some "Bearer", some 7200, some 100, some "legacy"⟩, none) := by
  refine ⟨?_, ?_, ?_⟩
  · exact (fetch_token_credential_update
      ⟨some "old", some "oldType", some 3600, some 0, some "legacy"⟩
      Method.legacy (Except.error (PccError.pccEx "boom"))
      (Except.ok ⟨some "x", some "y", some 1⟩) 100).1 _ rfl
  · exact ((fetch_token_credential_update
      ⟨some "old", some "oldType", some 3600, some 0, some "legacy"⟩
      Method.legacy (Except.ok ⟨some "new", none, none⟩)
      (Except.ok ⟨some "x", some "y", some 1⟩) 100).2 _ "legacy" rfl).2.1 _ rfl rfl
  · exact ((fetch_token_credential_update
      ⟨some "old", some "oldType", some 3600, some 0, some "legacy"⟩
      Method.legacy (Except.ok ⟨some "new", some "Bearer", some 7200⟩)
      (Except.ok ⟨some "x", some "y", some 1⟩) 100).2 _ "legacy" rfl).2.2.2 _ _ _
      rfl rfl rfl

/-- C7: a successful `fetch_token` stores `fetched_at = now` and
`expires_in` from the response, and the expiry check (modelled from the
spec, see `is_expired`) then reports not-expired exactly while
`now < fetched_at + expires_in`: immediately after the fetch it reports
not-expired (for a positive `expires_in`), and backdating `fetched_at` by
more than `expires_in` seconds makes it report expired. -/
theorem fetch_token_expiry (c : Credential) (m : Method)
    (leg swd : Except PccError AccessTokenResp) (now : Int)
    (resp : AccessTokenResp) (impl tok ty : String) (e : Int)
    (hflow : (fetchTokenFlows m leg swd).1 = Except.ok (resp, impl))
    (htok : resp.accessToken = some tok) (hty : resp.tokenType = some ty)
    (hexp : resp.expiresIn = some e) :
    fetchToken c m leg swd now =
      (⟨some tok, some ty, some e, some now, some impl⟩, none) ∧
    (∀ t, is_expired ⟨some tok, some ty, some e, some now, some impl⟩ t = false ↔
      t < now + e) ∧
    (0 < e →
      is_expired ⟨some tok, some ty, some e, some now, some impl⟩ now = false) ∧
    (∀ d, e < d →
      is_expired ⟨some tok, some ty, some e, some (now - d), some impl⟩ now = true) := by
  refine ⟨?_, ?_, ?_, ?_⟩
  · cases hp : fetchTokenFlows m leg swd with
    | mk res att =>
      rw [hp] at hflow
      simp only at hflow
      subst hflow
      simp [fetchToken, hp, applyAccessToken, htok, hty, hexp]
  · intro t
    simp only [is_expired, decide_eq_false_iff_not, not_le]
  · intro hpos
    simp only [is_expired, decide_eq_false_iff_not, not_le]
    omega
  · intro d hd
    simp only [is_expired, decide_eq_true_eq]
    omega

/-- Witness for C7: a successful legacy fetch at time 1000 with
`expires_in = 3600`; not expired at 1000, expired at 1000 once `fetched_at`
is backdated by 4000 seconds. -/
theorem fetch_token_expiry_witness :
    fetchToken ⟨none, none, none, none, none⟩ Method.legacy
        (Except.ok ⟨some "tok", some "Bearer", some 3600⟩)
        (Except.ok ⟨some "tok", some "Bearer", some 3600⟩) 1000 =
      (⟨some "tok", some "Bearer", some 3600, some 1000, some "legacy"⟩, none) ∧
    is_expired ⟨some "tok", some "Bearer", some 3600, some 1000, some "legacy"⟩
        1000 = false ∧
    is_expired ⟨some "tok", some "Bearer", some 3600, some (1000 - 4000),
        some "legacy"⟩ 1000 = true := by
  have h := fetch_token_expiry ⟨none, none, none, none, none⟩ Method.legacy
    (Except.ok ⟨some "tok", some "Bearer", some 3600⟩)
    (Except.ok ⟨some "tok", some "Bearer", some 3600⟩) 1000
    ⟨some "tok", some "Bearer", some 3600⟩ "legacy" "tok" "Bearer" 3600
    rfl rfl rfl rfl
  exact ⟨h.1, h.2.2.1 (by omega), h.2.2.2 4000 (by omega)⟩

/-! ## Lemmas about the font-size search -/

/-- `fosLoop` returns its accumulator as soon as the bounds have crossed. -/
theorem fosLoop_stop (wrapLines : Nat → Nat) (charW : Nat → Nat → Nat)
    (fontH : Nat → Nat) (padding : Nat) (fuel l r a b : Nat) (h : ¬l < r) :
    fosLoop wrapLines charW fontH padding fuel l r a b = (a, b) := by
  cases fuel <;> simp [fosLoop, h]

/-- With enough fuel, the size returned by `fosLoop` is one of the probed
midpoints, hence strictly between the bounds: `l ≤ result < r`. -/
theorem fosLoop_mem (wrapLines : Nat → Nat) (charW : Nat → Nat → Nat)
    (fontH : Nat → Nat) (padding : Nat) :
    ∀ fuel l r a b, l < r → r - l ≤ fuel →
      l ≤ (fosLoop wrapLines charW fontH padding fuel l r a b).1 ∧
        (fosLoop wrapLines charW fontH padding fuel l r a b).1 < r := by
  intro fuel
  induction fuel with
  | zero => intro l r a b hlr hfuel; omega
  | succ k ih =>
    intro l r a b hlr hfuel
    have hmid_lb : l ≤ (l + r) / 2 := by omega
    have hmid_ub : (l + r) / 2 < r := by omega
    simp only [fosLoop, if_pos hlr]
    cases hfits : sizeFits wrapLines charW fontH padding ((l + r) / 2) with
    | true =>
      simp only [hfits, if_true]
      by_cases h2 : (l + r) / 2 + 1 < r
      · have := ih ((l + r) / 2 + 1) r ((l + r) / 2)
          (line_width charW ((l + r) / 2)) h2 (by omega)
        omega
      · rw [fosLoop_stop _ _ _ _ _ _ _ _ _ h2]
        exact ⟨hmid_lb, hmid_ub⟩
    | false =>
      simp only [hfits, Bool.false_eq_true, if_false]
      by_cases h2 : l < (l + r) / 2 - 1
      · have := ih l ((l + r) / 2 - 1) ((l + r) / 2)
          (line_width charW ((l + r) / 2)) h2 (by omega)
        omega
      · rw [fosLoop_stop _ _ _ _ _ _ _ _ _ h2]
        exact ⟨hmid_lb, hmid_ub⟩

/-- When every probed size fits, `fosLoop` follows the `allFitTrace`
trajectory: only the lower bound moves. -/
theorem fosLoop_allFit (wrapLines : Nat → Nat) (charW : Nat → Nat → Nat)
    (fontH : Nat → Nat) (padding : Nat)
    (hall : ∀ s, sizeFits wrapLines charW fontH padding s = true) :
    ∀ fuel l r a b,
      (fosLoop wrapLines charW fontH padding fuel l r a b).1 =
        allFitTrace fuel l r a := by
  intro fuel
  induction fuel with
  | zero => intro l r a b; rfl
  | succ k ih =>
    intro l r a b
    by_cases hlr : l < r
    · simp only [fosLoop, allFitTrace, if_pos hlr, hall, if_true]
      exact ih _ _ _ _
    · simp only [fosLoop, allFitTrace, if_neg hlr]

/-- C3 counterexample: the claim fails for the non-empty message `" "`
(a single space): `splitlines` keeps it but `textwrap.wrap` collapses it to
no lines at every width, so the wrapped layout (0 lines) fits the canvas at
every size — modelled by `wrapLines ≡ 0` with arbitrary font metrics.  The
maximum size 400 of the search range fits, yet `find_optimal_size` returns
399, the last midpoint probed: the returned size is not the largest fitting
size in `[min_size, max_size]`. -/
theorem find_optimal_size_counterexample :
    (find_optimal_size (fun _ => 0) (fun _ _ => 0) (fun _ => 0) 50).1 = 399 ∧
    sizeFits (fun _ => 0) (fun _ _ => 0) (fun _ => 0) 50 400 = true ∧
    (399 : Nat) ≠ 400 :=
  ⟨by decide, by decide, by decide⟩

/-- C3 amended: `find_optimal_size` returns the last midpoint probed by the
binary search, which always lies in `[min_size, max_size) = [20, 400)` —
`max_size` itself is never probed, hence never returned even when it fits —
and when every size fits (as for whitespace-only text) the result is
`max_size - 1 = 399`. -/
theorem find_optimal_size_last_midpoint (wrapLines : Nat → Nat)
    (charW : Nat → Nat → Nat) (fontH : Nat → Nat) (padding : Nat) :
    (20 ≤ (find_optimal_size wrapLines charW fontH padding).1 ∧
      (find_optimal_size wrapLines charW fontH padding).1 < 400) ∧
    ((∀ s, sizeFits wrapLines charW fontH padding s = true) →
      (find_optimal_size wrapLines charW fontH padding).1 = 399) := by
  constructor
  · exact fosLoop_mem wrapLines charW fontH padding 381 20 400 0 0
      (by omega) (by omega)
  · intro hall
    show (fosLoop wrapLines charW fontH padding 381 20 400 0 0).1 = 399
    rw [fosLoop_allFit wrapLines charW fontH padding hall]
    decide

/-- Witness for the amended C3 at concrete metrics (all-fitting layout). -/
theorem find_optimal_size_last_midpoint_witness :
    (20 ≤ (find_optimal_size (fun _ => 0) (fun _ _ => 0) (fun _ => 0) 50).1 ∧
      (find_optimal_size (fun _ => 0) (fun _ _ => 0) (fun _ => 0) 50).1 < 400) ∧
    (find_optimal_size (fun _ => 0) (fun _ _ => 0) (fun _ => 0) 50).1 = 399 := by
  have h := find_optimal_size_last_midpoint (fun _ => 0) (fun _ _ => 0)
    (fun _ => 0) 50
  exact ⟨h.1, h.2 (fun s => by simp [sizeFits])⟩

/-- C4: with fallback colour fill (validation) enabled, a source image
strictly smaller than the computed target box in either dimension selects
the contain path, whose border fill is `(r, g, b, 0)` for the dominant
colour `(r, g, b)` sampled from the source — not a fixed constant; a source
at least as large as the box in both dimensions selects the cover path,
with no filled border. -/
theorem cover_contain_selection (getColor : SrcImage → Nat × Nat × Nat)
    (file : SrcImage) (tw th : Nat) (qf : ℚ) (image_rotate enforce_size : Bool) :
    (((rotatedImage file image_rotate).w : ℚ) <
        (computedBox (rotatedImage file image_rotate) tw th qf enforce_size).1 ∨
      ((rotatedImage file image_rotate).h : ℚ) <
        (computedBox (rotatedImage file image_rotate) tw th qf enforce_size).2 →
      rotate_and_scale_image getColor file tw th qf image_rotate enforce_size true =
        ResizeOutcome.contain
          (computedBox (rotatedImage file image_rotate) tw th qf enforce_size).1
          (computedBox (rotatedImage file image_rotate) tw th qf enforce_size).2
          ((getColor file).1, (getColor file).2.1, (getColor file).2.2, 0)) ∧
    ((computedBox (rotatedImage file image_rotate) tw th qf enforce_size).1 ≤
        ((rotatedImage file image_rotate).w : ℚ) ∧
      (computedBox (rotatedImage file image_rotate) tw th qf enforce_size).2 ≤
        ((rotatedImage file image_rotate).h : ℚ) →
      rotate_and_scale_image getColor file tw th qf image_rotate enforce_size true =
        ResizeOutcome.cover
          (computedBox (rotatedImage file image_rotate) tw th qf enforce_size).1
          (computedBox (rotatedImage file image_rotate) tw th qf enforce_size).2) := by
  constructor
  · intro h
    simp only [rotate_and_scale_image]
    rw [if_pos ⟨trivial, h⟩]
  · intro h
    simp only [rotate_and_scale_image]
    rw [if_neg]
    intro hcontra
    rcases hcontra.2 with hw | hh
    · exact absurd h.1 (not_le.mpr hw)
    · exact absurd h.2 (not_le.mpr hh)

/-- Witness for C4: a 100×50 source against a 200×100 box falls back to
contain with the sampled colour; a 300×150 source takes the cover path. -/
theorem cover_contain_selection_witness :
    (rotate_and_scale_image (fun i => (i.content, 2, 3)) ⟨100, 50, 7⟩ 200 100 1
        false true true =
      ResizeOutcome.contain
        (computedBox (rotatedImage ⟨100, 50, 7⟩ false) 200 100 1 true).1
        (computedBox (rotatedImage ⟨100, 50, 7⟩ false) 200 100 1 true).2
        (7, 2, 3, 0)) ∧
    (rotate_and_scale_image (fun i => (i.content, 2, 3)) ⟨300, 150, 7⟩ 200 100 1
        false true true =
      ResizeOutcome.cover
        (computedBox (rotatedImage ⟨300, 150, 7⟩ false) 200 100 1 true).1
        (computedBox (rotatedImage ⟨300, 150, 7⟩ false) 200 100 1 true).2) := by
  constructor
  · exact (cover_contain_selection (fun i => (i.content, 2, 3)) ⟨100, 50, 7⟩
      200 100 1 false true).1 (by norm_num [rotatedImage, computedBox])
  · exact (cover_contain_selection (fun i => (i.content, 2, 3)) ⟨300, 150, 7⟩
      200 100 1 false true).2 (by norm_num [rotatedImage, computedBox])

end PostcardCreator
